import Mathlib

/-!
Verification development for the Leyla-cuisine conversational order bot.

The Python sources are shallowly embedded: pure functions become Lean
functions, Python numbers (`float`) are modelled as exact rationals `ℚ`
(the quantities the claims compare differ by far more than any IEEE-754
rounding), `Optional[..]` becomes `Option`, and fallible code returns
`Except String`.  External capabilities (the Google Drive menu store, the
LLM agent runs, `difflib.get_close_matches`, the Agents SDK) enter as
explicit parameters of the embedded functions.
-/

namespace Leyla

/-- An item in an order (src/tools_handler.py, class OrderItem). -/
structure OrderItem where
  name : String
  quantity : Int
deriving DecidableEq, Repr

/-- A customer order (src/tools_handler.py, class Order).  The model has
exactly the five declared fields: `email`, `items`, `discount`,
`delivery`, `tax_rate`.  `discount: Optional[Union[str, float]]` becomes
`Option (String ⊕ ℚ)`. -/
structure Order where
  email : Option String := none
  items : List OrderItem := []
  discount : Option (String ⊕ ℚ) := none
  delivery : Option Bool := none
  tax_rate : Option ℚ := none
deriving DecidableEq, Repr

/-- One entry of the menu map returned by `load_menu()`
(a `Dict[str, Dict[str, Any]]`; the quotation code reads the keys
`"Price"` and `"Category"`). -/
structure MenuEntry where
  Price : ℚ
  Category : String
deriving DecidableEq, Repr

/-- The menu snapshot: a finite map from item name to entry, modelled as
an association list (Python dict keys are unique). -/
def Menu : Type := List (String × MenuEntry)

/-- `dict.get(name)` on an association list. -/
def dictGet (m : List (String × MenuEntry)) (k : String) : Option MenuEntry :=
  (m.find? (fun p => p.1 == k)).map Prod.snd

/-- One line of the returned quotation dictionary (keys `"Item"`,
`"Quantity"`, `"Unit Price"`, `"Total Price"`, `"Category"`). -/
structure QuoteLine where
  Item : String
  Quantity : Int
  UnitPrice : ℚ
  TotalPrice : ℚ
  Category : String
deriving DecidableEq, Repr

/-- The quotation dictionary returned by `calculate_quotation`
(src/tools_handler.py lines 119-126). -/
structure Quotation where
  quotation : List QuoteLine
  subtotal : ℚ
  discount : ℚ
  tax : ℚ
  delivery_fee : ℚ
  final_total : ℚ
deriving DecidableEq, Repr

/-- Digit list to number. -/
def digitsToNat (l : List Char) : Nat :=
  l.foldl (fun n c => 10 * n + (c.toNat - Char.toNat '0')) 0

/-- Model of Python `float(s)` on the plain decimal literals that occur as
discount strings: optional sign, digits, optional fractional part.
(Exponents, inf/nan and unicode digits never occur here.)  `none` models
the `ValueError` that `float` raises on a non-numeric string. -/
def pyFloat (s : String) : Option ℚ :=
  let l := s.toList
  let sign : ℚ × List Char :=
    match l with
    | '-' :: rest => (-1, rest)
    | '+' :: rest => (1, rest)
    | _ => (1, l)
  let intPart := sign.2.takeWhile Char.isDigit
  let rest := sign.2.drop intPart.length
  match rest with
  | [] => if intPart.isEmpty then none else some (sign.1 * (digitsToNat intPart : ℚ))
  | '.' :: frac =>
      if frac.all Char.isDigit && !(intPart.isEmpty && frac.isEmpty) then
        some (sign.1 * ((digitsToNat intPart : ℚ) +
          (digitsToNat frac : ℚ) / ((10 : ℚ) ^ frac.length)))
      else none
  | _ => none

/-- Python `s.strip("%")`: remove leading and trailing `%` characters. -/
def stripPercent (s : String) : String :=
  String.mk (((s.toList.dropWhile (· == '%')).reverse.dropWhile (· == '%')).reverse)

/-- Python `s.endswith(suf)`, modelled structurally on the character list. -/
def pyEndsWith (s suf : String) : Bool :=
  suf.toList.isSuffixOf s.toList

/-- Python `s.startswith(pre)`, modelled structurally on the character list. -/
def pyStartsWith (s pre : String) : Bool :=
  pre.toList.isPrefixOf s.toList

/-- The item-resolution step of the quotation loop
(src/tools_handler.py lines 92-97): exact `menu.get(name)` lookup first,
otherwise the single best fuzzy match
`difflib.get_close_matches(name, menu.keys(), n=1, cutoff=0.6)`, passed
in as the parameter `closeMatch` (it is Python standard-library code, not
part of this repository).  A failed resolution raises
`ValueError("Item <name> not found.")`; the second `none` branch models
the `KeyError` that `menu[matches[0]]` would raise if the matcher ever
returned a non-key (for the real `difflib` matcher this cannot happen,
since candidates are drawn from `menu.keys()`). -/
def resolveMenuItem (closeMatch : String → List String → Option String)
    (menu : List (String × MenuEntry)) (name : String) : Except String MenuEntry :=
  match dictGet menu name with
  | some item => .ok item
  | none =>
      match closeMatch name (menu.map Prod.fst) with
      | none => .error ("Item " ++ name ++ " not found.")
      | some k =>
          match dictGet menu k with
          | some item => .ok item
          | none => .error ("Item " ++ name ++ " not found.")

/-- The per-item loop of `calculate_quotation`
(src/tools_handler.py lines 90-107): resolve each line, price it, and
collect the line dictionaries; the first unresolved item aborts the whole
computation. -/
def quotationLines (closeMatch : String → List String → Option String)
    (menu : List (String × MenuEntry)) : List OrderItem → Except String (List QuoteLine)
  | [] => .ok []
  | oi :: rest => do
      let item ← resolveMenuItem closeMatch menu oi.name
      let unit := item.Price
      let total := unit * (oi.quantity : ℚ)
      let lines ← quotationLines closeMatch menu rest
      .ok ({ Item := oi.name, Quantity := oi.quantity, UnitPrice := unit,
             TotalPrice := total, Category := item.Category } :: lines)

/-- The discount computation of `calculate_quotation`
(src/tools_handler.py lines 108-114), including Python truthiness of
`if order.discount:`: `None`, the empty string and `0.0` are all falsy
and leave the discount at `0.0`.  A percentage string uses
`float(s.strip("%")) / 100` applied to the subtotal; any other value goes
through `float(...)`. -/
def discountAmount (subtotal : ℚ) : Option (String ⊕ ℚ) → Except String ℚ
  | none => .ok 0
  | some (.inl s) =>
      if s = "" then .ok 0
      else if pyEndsWith s "%" then
        match pyFloat (stripPercent s) with
        | some d => .ok (subtotal * (d / 100))
        | none => .error "could not convert string to float"
      else
        match pyFloat s with
        | some f => .ok f
        | none => .error "could not convert string to float"
  | some (.inr f) => .ok (if f = 0 then 0 else f)

/-- The effective tax rate `(order.tax_rate or 8.1)`
(src/tools_handler.py line 116).  Python `or` takes the right operand
whenever the left is falsy, so both a missing rate and a supplied rate of
`0.0` yield the default `8.1`. -/
def effectiveTaxRate : Option ℚ → ℚ
  | none => 8.1
  | some r => if r = 0 then 8.1 else r

/-- `calculate_quotation` (src/tools_handler.py lines 81-126), with the
menu snapshot and the `difflib` fuzzy matcher as explicit parameters.
The raised `ValueError` becomes an `Except.error`. -/
def calculate_quotation (closeMatch : String → List String → Option String)
    (menu : List (String × MenuEntry)) (order : Order) : Except String Quotation := do
  let lines ← quotationLines closeMatch menu order.items
  let subtotal := lines.foldl (fun acc l => acc + l.TotalPrice) 0
  let discount ← discountAmount subtotal order.discount
  let adjusted := subtotal - discount
  let tax := adjusted * (effectiveTaxRate order.tax_rate / 100)
  let fee : ℚ := if order.delivery = some true then 15 else 0
  .ok { quotation := lines, subtotal := subtotal, discount := discount,
        tax := tax, delivery_fee := fee, final_total := adjusted + tax + fee }

/-! ## String helpers shared by the bot embedding -/

/-- Python `s.strip()`: remove leading and trailing whitespace. -/
def pyStrip (s : String) : String :=
  String.mk (((s.toList.dropWhile Char.isWhitespace).reverse.dropWhile Char.isWhitespace).reverse)

/-- Python `s.lower()` (the replies the claims mention are ASCII). -/
def pyLower (s : String) : String :=
  String.mk (s.toList.map Char.toLower)

/-- `message.text.strip().lower()`, the normalisation applied to every
confirmation reply in bot.py. -/
def pyStripLower (s : String) : String := pyLower (pyStrip s)

/-- The confirmation idiom of bot.py lines 349-350, 406-407 and 468-470:
`message.text.strip().lower().startswith("y")`. -/
def pyYes (s : String) : Bool := pyStartsWith (pyStripLower s) "y"

/-- Helper for the Python substring operator. -/
def hasSubstrChars (pat : List Char) : List Char → Bool
  | [] => pat.isEmpty
  | c :: rest => pat.isPrefixOf (c :: rest) || hasSubstrChars pat rest

/-- Python `pat in s` substring membership on strings. -/
def hasSubstr (s pat : String) : Bool := hasSubstrChars pat.toList s.toList

/-- Python `str(x)` on an `Optional[str]`: `None` renders as `"None"`
inside an f-string. -/
def pyOptStr : Option String → String
  | some s => s
  | none => "None"

/-- Python `x or dflt` on an `Optional[str]`: `None` and the empty string
are falsy. -/
def pyOrStr (o : Option String) (dflt : String) : String :=
  match o with
  | some s => if s = "" then dflt else s
  | none => dflt

/-- Python `int(s)` on an optionally signed digit string (the address
selection at bot.py line 629); `none` models the `ValueError`. -/
def pyInt (s : String) : Option Int :=
  match s.toList with
  | '-' :: rest =>
      if !rest.isEmpty && rest.all Char.isDigit then some (-(digitsToNat rest : Int)) else none
  | '+' :: rest =>
      if !rest.isEmpty && rest.all Char.isDigit then some (digitsToNat rest : Int) else none
  | l =>
      if !l.isEmpty && l.all Char.isDigit then some (digitsToNat l : Int) else none

/-- Round half to even, the rounding CPython string formatting applies;
used on the exact rational value. -/
def roundHalfEven (x : ℚ) : Int :=
  let f : Int := Int.floor x
  let r : ℚ := x - (f : ℚ)
  if r < 1/2 then f
  else if r > 1/2 then f + 1
  else if f % 2 = 0 then f else f + 1

/-- Two-digit zero padding. -/
def pad2 (n : Nat) : String :=
  if n < 10 then "0" ++ toString n else toString n

/-- Python f-string formatting `:.2f`, applied to the exact rational
value of the Python float. -/
def fmt2 (q : ℚ) : String :=
  let n := roundHalfEven (q * 100)
  (if n < 0 then "-" else "") ++ toString (n.natAbs / 100) ++ "." ++ pad2 (n.natAbs % 100)

/-! ## Conversation history (bot.py lines 319-322, 991-1028) -/

/-- A conversation item (role, content). -/
structure ChatMsg where
  role : String
  content : String
deriving DecidableEq, Repr

/-- `MAX_HISTORY = 4` (bot.py line 321, commented
"Only keep the last 4 messages per user"). -/
def MAX_HISTORY : Nat := 4

/-- bot.py line 996: `conversation.append(...)` mutates the list object
stored in `user_histories`, so immediately after the append the stored
history is the old history plus the new user message.  (The slice on line
997 rebinds only the local variable and is never written back.) -/
def historyAfterAppend (stored : List ChatMsg) (userMsg : ChatMsg) : List ChatMsg :=
  stored ++ [userMsg]

/-- Python `conversation[-MAX_HISTORY:]` (bot.py line 997). -/
def pyTakeLast (n : Nat) (l : List ChatMsg) : List ChatMsg :=
  l.drop (l.length - n)

/-- Modelled from the spec: `response.to_input_list()` of the Agents SDK
(an external library, not part of this repository) returns the input item
list passed to the run followed by the items newly generated during the
run. -/
def toInputList (input newItems : List ChatMsg) : List ChatMsg :=
  input ++ newItems

/-- The history stored in `user_histories[user_id]` when a turn of
`process_message` completes (bot.py lines 991-1028): the conversation
truncated to the last `MAX_HISTORY` entries is passed to the agent run,
and the stored history is then replaced wholesale by
`response.to_input_list()`. -/
def historyAfterTurn (stored : List ChatMsg) (userMsg : ChatMsg)
    (newItems : List ChatMsg) : List ChatMsg :=
  toInputList (pyTakeLast MAX_HISTORY (historyAfterAppend stored userMsg)) newItems

/-! ## Agent routing (bot.py lines 947-1111) -/

/-- The five agents defined in bot.py. -/
inductive AgentName
  | triage
  | parser
  | menu
  | contacts
  | calendar
deriving DecidableEq, Repr

/-- The continuation functions bot.py registers through telebot
`register_next_step_handler`; registering one binds the next turn of the
user directly to that function, bypassing the agent router. -/
inductive NextStep
  | confirmation
  | calendarAfterApproval
  | calendarConfirmation
  | calendarModification
  | specificModification
  | calendarResponse
deriving DecidableEq, Repr

/-- The payload produced by an agent run: the parser agent can return a
structured `Order`; every run can return free text. -/
inductive AgentOutput
  | structuredOrder (o : Order)
  | text (s : String)
deriving DecidableEq, Repr

/-- `str(result)` of the payload in the non-order branch.  A structured
payload from a non-parser agent does not occur (only the parser agent has
`Order` output type); it is rendered opaquely as the empty string. -/
def outputText : AgentOutput → String
  | .structuredOrder _ => ""
  | .text s => s

/-- The prefixes stripped from agent replies (bot.py lines 1083-1087). -/
def prefixesToRemove : List String :=
  ["Contacts operation result: ", "Menu operation result: ", "Calendar agent result: "]

/-- Output cleanup (bot.py lines 1088-1090): drop each listed prefix when
the current text starts with it. -/
def stripMetaPrefixes (s : String) : String :=
  prefixesToRemove.foldl
    (fun out p => if pyStartsWith out p then (out.toList.drop p.toList.length).asString else out)
    s

/-- `f"Sorry, there was an error: {str(e)}"` (bot.py line 1108). -/
def errorReply (e : String) : String := "Sorry, there was an error: " ++ e

/-- The text of the `AttributeError` raised at bot.py line 1042 by
`result.name`: the `Order` model (src/tools_handler.py lines 31-39)
declares only `email`, `items`, `discount`, `delivery` and `tax_rate`, and
pydantic rejects access to undeclared attributes.  (CPython wraps the two
names in single quotes; the quotes are omitted here.) -/
def attributeErrorText : String := "Order object has no attribute name"

/-- The user-visible effects of the dispatch part of one turn. -/
structure TurnEffects where
  messages : List String
  registered : Option NextStep
  nextActive : AgentName
deriving DecidableEq, Repr

/-- The post-run dispatch of `process_message` (bot.py lines 1021-1111).
Line 1031 first stores the responding agent as active; the order branch
(lines 1034-1076) then sends "Processing your order details...", calls
`calculate_quotation`, and on success assigns `quotation["email"]`
(line 1041) and then reads `result.name` (line 1042), which raises
`AttributeError`; the handler at lines 1106-1111 reports the error and
resets the active agent to triage.  If `calculate_quotation` itself
raises, the same error path runs with its message.  Every other output is
prefix-cleaned and sent, and the active agent is kept exactly when the
responder is neither the triage nor the parser agent (lines 1096-1101). -/
def dispatchTurn (closeMatch : String → List String → Option String)
    (menu : List (String × MenuEntry))
    (respondingAgent : AgentName) (result : AgentOutput) : TurnEffects :=
  match respondingAgent, result with
  | .parser, .structuredOrder o =>
      match calculate_quotation closeMatch menu o with
      | .error e =>
          { messages := ["Processing your order details...", errorReply e],
            registered := none, nextActive := .triage }
      | .ok _q =>
          { messages := ["Processing your order details...", errorReply attributeErrorText],
            registered := none, nextActive := .triage }
  | agent, out =>
      { messages := [stripMetaPrefixes (outputText out)],
        registered := none,
        nextActive := if agent ≠ .triage ∧ agent ≠ .parser then agent else .triage }

/-! ## Post-quotation confirmation workflow (bot.py lines 343-665) -/

/-- The quotation dictionary as the calendar flow reads it
(`quotation.get("email"/"name"/"address"/"quotation"/"final_total")`,
bot.py lines 408-415), including the keys that lines 1041-1044 intend to
add to the plain quotation. -/
structure QuotationCtx where
  email : Option String := none
  name : Option String := none
  address : Option String := none
  quotation : List QuoteLine := []
  final_total : ℚ := 0
deriving DecidableEq, Repr

/-- The per-user state dictionary `user_states[user_id]` created at
bot.py lines 419-427. -/
structure CalendarState where
  calendar_agent_response : Option String := none
  quotation : QuotationCtx := {}
  summary : String := ""
  description : String := ""
  address : Option String := none
  is_address_update : Bool := false
  available_addresses : List String := []
deriving DecidableEq, Repr

/-- `f"An error occurred: {str(e)}"` as sent by the workflow handlers. -/
def errOccurred (e : String) : String := "An error occurred: " ++ e

/-- The `TypeError` raised at bot.py line 365:
`save_approved_quotation(pdf_path, customer_name)` passes two positional
arguments to a one-parameter function (src/tools_handler.py line 182). -/
def typeErrorText : String :=
  "save_approved_quotation() takes 1 positional argument but 2 were given"

/-- Effects of `confirmation_handler`. -/
structure ConfirmationEffects where
  messages : List String
  registered : Option NextStep
deriving DecidableEq, Repr

/-- `confirmation_handler` (bot.py lines 343-394), with the notification
service modelled by the flag `sendOk`.  In the affirmative branch with a
successful send, the two-argument call to `save_approved_quotation` at
line 365 raises a `TypeError`, caught at line 392, so the calendar prompt
and registration at lines 381-385 are never reached. -/
def confirmation_handler (sendOk : Bool) (msgText : String) : ConfirmationEffects :=
  if pyYes msgText then
    if sendOk then
      { messages := ["Quotation sent via email successfully!", errOccurred typeErrorText],
        registered := none }
    else
      { messages := ["Failed to send quotation via email."], registered := none }
  else
    { messages := ["Quotation sending canceled. Please try again if needed."],
      registered := none }

/-- The order-details block of the scheduling prompt
(bot.py lines 412-415). -/
def orderDetailsText (lines : List QuoteLine) : String :=
  lines.foldl (fun acc item => acc ++ "- " ++ item.Item ++ " x" ++ toString item.Quantity ++ "\n")
    ""

/-- The event description built at bot.py lines 412-415. -/
def deliveryDescription (q : QuotationCtx) : String :=
  "Delivery for approved catering order.\nOrder details:\n" ++ orderDetailsText q.quotation ++
    "\nTotal: $" ++ fmt2 q.final_total

/-- The scheduling prompt sent to the calendar agent
(bot.py lines 429-437). -/
def schedulePrompt (clientName clientEmail description : String)
    (address : Option String) : String :=
  "Schedule a delivery event for " ++ clientName ++ " (" ++ clientEmail ++ ").\n" ++
  "Order details: " ++ description ++ "\n" ++
  "Address: " ++ pyOrStr address "To be determined" ++ "\n" ++
  "Please check the contact list for any existing addresses and use them if available.\n" ++
  "If multiple addresses are found, ask the user which one to use.\n" ++
  "Please confirm the event details with the user before creating.\n" ++
  "End your response with [y/n] to get user confirmation."

/-- Effects of `handle_calendar_after_approval`. -/
structure AfterApprovalEffects where
  messages : List String
  registered : Option NextStep
  stateAfter : Option CalendarState
deriving DecidableEq, Repr

/-- `handle_calendar_after_approval` (bot.py lines 400-460).  The LLM run
`Runner.run(calendar_agent, prompt)` is the parameter `agentReply`.  An
affirmative reply builds the event draft, stores the per-user state (with
`calendar_agent_response` set to the agent output, line 444), sends that
output and registers `handle_calendar_confirmation`; any other reply
answers "No calendar event scheduled." and leaves the state alone. -/
def handle_calendar_after_approval (agentReply : String → String)
    (statesBefore : Option CalendarState) (q : QuotationCtx) (msgText : String) :
    AfterApprovalEffects :=
  let text := pyStripLower msgText
  if pyStartsWith text "y" then
    let clientEmail := pyOrStr q.email "unknown"
    let clientName := pyOrStr q.name "Unknown Client"
    let description := deliveryDescription q
    let reply := agentReply (schedulePrompt clientName clientEmail description q.address)
    { messages := [reply],
      registered := some .calendarConfirmation,
      stateAfter := some
        { calendar_agent_response := some reply, quotation := q,
          summary := "Delivery for " ++ clientName, description := description,
          address := q.address, is_address_update := false, available_addresses := [] } }
  else
    { messages := ["No calendar event scheduled."], registered := none,
      stateAfter := statesBefore }

/-- The numbered multi-candidate selection message
(bot.py lines 495-499). -/
def chooseAddressText (addrs : List String) : String :=
  "Please choose an address by number:\n" ++
    String.intercalate "\n" (addrs.enum.map (fun p => toString (p.1 + 1) ++ ". " ++ p.2)) ++
    "\n\nConfirm your choice? [y/n]"

/-- Effects of `handle_calendar_confirmation`. -/
structure CalendarConfirmEffects where
  messages : List String
  registered : Option NextStep
  stateAfter : Option CalendarState
deriving DecidableEq, Repr

/-- `handle_calendar_confirmation` (bot.py lines 462-530).  Note the
cleanup at lines 521-523: `del user_states[user_id]` runs on every
non-raising path, including the address-update branch that has just
registered `handle_calendar_response` as the next-turn continuation, so
the stored state is gone by the time that continuation runs. -/
def handle_calendar_confirmation (agentReply : String → String)
    (statesBefore : Option CalendarState) (msgText : String) : CalendarConfirmEffects :=
  let text := pyStripLower msgText
  if pyStartsWith text "y" then
    match statesBefore with
    | none =>
        { messages := [errOccurred "No calendar state found for user"],
          registered := none, stateAfter := none }
    | some st =>
        { messages :=
            [agentReply ("Create the event with these details:\n" ++
              pyOptStr st.calendar_agent_response)],
          registered := none, stateAfter := none }
  else
    if hasSubstr text "address" || hasSubstr text "location" then
      match statesBefore with
      | none =>
          { messages := ["Please provide the new address:"],
            registered := some .calendarResponse, stateAfter := none }
      | some st =>
          if st.available_addresses.isEmpty then
            { messages := ["Please provide the new address:"],
              registered := some .calendarResponse, stateAfter := none }
          else
            { messages := [chooseAddressText st.available_addresses],
              registered := some .calendarResponse, stateAfter := none }
    else
      { messages := ["Event creation canceled. Would you like to modify any details? [y/n]"],
        registered := some .calendarModification, stateAfter := none }

/-- The address-update prompt of `handle_calendar_response`
(bot.py lines 645-650). -/
def updateAddressPrompt (newAddress resp : String) : String :=
  "Update the delivery event with the new address: " ++ newAddress ++ "\n" ++
  "Original details: " ++ resp ++ "\n" ++
  "Please confirm the updated event details with the user.\n" ++
  "End your response with [y/n] to get user confirmation."

/-- Effects of `handle_calendar_response`. -/
structure CalendarResponseEffects where
  messages : List String
  stateAfter : Option CalendarState
deriving DecidableEq, Repr

/-- `handle_calendar_response` (bot.py lines 615-665): the continuation
registered for the address turn.  With no stored state it raises
`ValueError("No calendar state found for user")`, caught at line 663. -/
def handle_calendar_response (agentReply : String → String)
    (statesBefore : Option CalendarState) (msgText : String) : CalendarResponseEffects :=
  match statesBefore with
  | none =>
      { messages := [errOccurred "No calendar state found for user"], stateAfter := none }
  | some st =>
      if st.is_address_update then
        if st.available_addresses.isEmpty then
          let addr := pyStrip msgText
          { messages :=
              [agentReply (updateAddressPrompt addr (pyOptStr st.calendar_agent_response))],
            stateAfter := some { st with address := some addr, is_address_update := false } }
        else
          match pyInt (pyStrip msgText) with
          | none =>
              { messages := ["Please select a valid number. [y/n]"], stateAfter := some st }
          | some choice =>
              if 1 ≤ choice ∧ choice ≤ (st.available_addresses.length : Int) then
                let addr := st.available_addresses.getD (choice - 1).toNat ""
                { messages :=
                    [agentReply (updateAddressPrompt addr (pyOptStr st.calendar_agent_response))],
                  stateAfter :=
                    some { st with address := some addr, is_address_update := false } }
              else
                { messages := ["Invalid selection. Please try again. [y/n]"],
                  stateAfter := some st }
      else
        { messages := ["No address update needed. [y/n]"], stateAfter := some st }

/-! ## Scheduling service (src/google_handlers/google_calendar_handler.py) -/

/-- A parsed `%Y-%m-%d %H:%M:%S` datetime.  The configured timezone
America/Phoenix has no daylight saving, so aware comparison of two
localized datetimes is plain lexicographic comparison of the fields. -/
structure PyDateTime where
  year : Int
  month : Nat
  day : Nat
  hour : Nat
  minute : Nat
  second : Nat
deriving DecidableEq, Repr

/-- Strict datetime comparison `dt < now`. -/
def dtLt (a b : PyDateTime) : Bool :=
  decide (a.year < b.year) ||
  (a.year == b.year && (decide (a.month < b.month) ||
    (a.month == b.month && (decide (a.day < b.day) ||
      (a.day == b.day && (decide (a.hour < b.hour) ||
        (a.hour == b.hour && (decide (a.minute < b.minute) ||
          (a.minute == b.minute && decide (a.second < b.second))))))))))

/-- `dt.replace(year=2025)` guarded by `if dt.year != 2025`
(google_calendar_handler.py lines 109-110).  Replacing the year of
February 29 raises `ValueError` because 2025 is not a leap year. -/
def replaceYear2025 (d : PyDateTime) : Except String PyDateTime :=
  if d.year = 2025 then .ok d
  else if d.month = 2 ∧ d.day = 29 then .error "day is out of range for month"
  else .ok { d with year := 2025 }

/-- `validate_datetime` (google_calendar_handler.py lines 99-124) on an
already parsed datetime, with the clock reading `datetime.now(mt_tz)`
passed in as `now`: force the year to 2025, then reject datetimes lying
before `now`. -/
def validate_datetime (now : PyDateTime) (dt : PyDateTime) : Except String PyDateTime := do
  let d2 ← replaceYear2025 dt
  if dtLt d2 now then .error "Cannot schedule events in the past" else .ok d2

/-- The event body handed to the Calendar API insert
(google_calendar_handler.py lines 143-157). -/
structure EventBody where
  summary : String
  location : String
  description : String
  startDT : PyDateTime
  endDT : PyDateTime
  attendees : List String
deriving DecidableEq, Repr

/-- `create_delivery_event` (google_calendar_handler.py lines 126-161):
validate both datetimes, then build and insert the event body; a
validation error propagates and nothing is inserted. -/
def create_delivery_event (now : PyDateTime) (summary address description : String)
    (start_datetime end_datetime : PyDateTime) (attendees : List String) :
    Except String EventBody := do
  let s ← validate_datetime now start_datetime
  let e ← validate_datetime now end_datetime
  .ok { summary := summary, location := address, description := description,
        startDT := s, endDT := e, attendees := attendees }

/-! ## Concrete fixtures used by the theorems -/

/-- A fuzzy matcher returning no candidate; instantiates the `difflib`
parameter where the exact lookup decides everything. -/
def noMatch : String → List String → Option String := fun _ _ => none

/-- An identity stand-in for the LLM agent run. -/
def echoReply : String → String := fun p => p

/-- The catalog of E2E scenario A. -/
def menuA : List (String × MenuEntry) :=
  [("Margherita Pizza", { Price := 12, Category := "main dish" })]

/-- The order of E2E scenario A. -/
def orderA : Order :=
  { email := some "a@b.com", items := [{ name := "Margherita Pizza", quantity := 2 }],
    discount := some (.inl "10%"), delivery := some true, tax_rate := some 8.1 }

/-- What `calculate_quotation` returns on scenario A. -/
def qA : Quotation :=
  { quotation := [{ Item := "Margherita Pizza", Quantity := 2, UnitPrice := 12,
                    TotalPrice := 24, Category := "main dish" }],
    subtotal := 24, discount := 12/5, tax := 2187/1250, delivery_fee := 15,
    final_total := 47937/1250 }

/-- An order that supplies an explicit tax rate of 0. -/
def orderZ : Order :=
  { email := none, items := [{ name := "Margherita Pizza", quantity := 1 }],
    discount := none, delivery := none, tax_rate := some 0 }

/-- What `calculate_quotation` returns on `orderZ`: the zero rate is falsy
and the default 8.1 is applied. -/
def qZ : Quotation :=
  { quotation := [{ Item := "Margherita Pizza", Quantity := 1, UnitPrice := 12,
                    TotalPrice := 12, Category := "main dish" }],
    subtotal := 12, discount := 0, tax := 243/250, delivery_fee := 0,
    final_total := 3243/250 }

/-- An order whose single item matches nothing in `menuA`. -/
def orderU : Order :=
  { email := none, items := [{ name := "Sushi", quantity := 1 }],
    discount := none, delivery := none, tax_rate := none }

/-- A stored history already at the `MAX_HISTORY` bound. -/
def hist4 : List ChatMsg :=
  [{ role := "user", content := "m1" }, { role := "assistant", content := "r1" },
   { role := "user", content := "m2" }, { role := "assistant", content := "r2" }]

/-- The next incoming user message. -/
def userMsg5 : ChatMsg := { role := "user", content := "m3" }

/-- A single item generated by the agent run. -/
def newItem5 : ChatMsg := { role := "assistant", content := "r3" }

/-- A stored calendar draft with a single known address. -/
def stC7 : CalendarState :=
  { calendar_agent_response := some "Proposed delivery event", quotation := {},
    summary := "Delivery for Jane", description := "d", address := some "123 Main St",
    is_address_update := false, available_addresses := [] }

/-- A stored calendar draft with two candidate addresses. -/
def stC7multi : CalendarState :=
  { stC7 with available_addresses := ["1 A St", "2 B Ave"] }

/-- A clock reading 2025-03-01 00:00:00. -/
def nowC9 : PyDateTime :=
  { year := 2025, month := 3, day := 1, hour := 0, minute := 0, second := 0 }

/-- A requested start datetime written with year 2024 (in the past). -/
def startPast2024 : PyDateTime :=
  { year := 2024, month := 6, day := 15, hour := 10, minute := 0, second := 0 }

/-- A requested end datetime written with year 2024 (in the past). -/
def endPast2024 : PyDateTime :=
  { year := 2024, month := 6, day := 15, hour := 11, minute := 0, second := 0 }

/-- A 2025 datetime lying before `nowC9`. -/
def start2025Past : PyDateTime :=
  { year := 2025, month := 2, day := 1, hour := 9, minute := 0, second := 0 }

/-- A 2025 datetime lying after `nowC9`. -/
def end2025Future : PyDateTime :=
  { year := 2025, month := 6, day := 1, hour := 10, minute := 0, second := 0 }

/-! ## Helper lemmas -/

/-- Evaluation of the pricing engine on the scenario-A order. -/
theorem qA_spec : calculate_quotation noMatch menuA orderA = .ok qA := by
  have h1 : stripPercent "10%" = "10" := by decide
  have h2 : pyEndsWith "10%" "%" = true := by decide
  have h3 : pyFloat "10" = some 10 := by simp [pyFloat, digitsToNat]
  simp [calculate_quotation, quotationLines, resolveMenuItem, dictGet, menuA, orderA, noMatch,
    discountAmount, h1, h2, h3, effectiveTaxRate, bind, Except.bind, qA]
  norm_num

/-- Evaluation of the pricing engine on the zero-tax-rate order. -/
theorem qZ_spec : calculate_quotation noMatch menuA orderZ = .ok qZ := by
  simp [calculate_quotation, quotationLines, resolveMenuItem, dictGet, menuA, orderZ, noMatch,
    discountAmount, effectiveTaxRate, bind, Except.bind, qZ]
  norm_num

/-- The scenario-A tax formats to `"1.75"` at two decimals. -/
theorem fmt2_qA_tax : fmt2 qA.tax = "1.75" := by
  have h : roundHalfEven (qA.tax * 100) = 175 := by
    simp only [roundHalfEven, qA]
    norm_num
  simp [fmt2, h, pad2]
  rfl

/-- The scenario-A final total formats to `"38.35"` at two decimals. -/
theorem fmt2_qA_final : fmt2 qA.final_total = "38.35" := by
  have h : roundHalfEven (qA.final_total * 100) = 3835 := by
    simp only [roundHalfEven, qA]
    norm_num
  simp [fmt2, h, pad2]
  rfl

/-- If some order line resolves neither exactly nor through the fuzzy
matcher, the whole line loop raises. -/
theorem lines_error_of_unresolved (cm : String → List String → Option String)
    (menu : List (String × MenuEntry)) (items : List OrderItem) (oi : OrderItem)
    (hmem : oi ∈ items) (h1 : dictGet menu oi.name = none)
    (h2 : cm oi.name (menu.map Prod.fst) = none) :
    ∃ msg, quotationLines cm menu items = .error msg := by
  induction items with
  | nil => cases hmem
  | cons x rest ih =>
      cases hmem with
      | head =>
          exact ⟨"Item " ++ oi.name ++ " not found.",
            by simp [quotationLines, resolveMenuItem, h1, h2, bind, Except.bind]⟩
      | tail _ hmem2 =>
          obtain ⟨msg, hmsg⟩ := ih hmem2
          cases hx : resolveMenuItem cm menu x.name with
          | error e => exact ⟨e, by simp [quotationLines, hx, bind, Except.bind]⟩
          | ok item => exact ⟨msg, by simp [quotationLines, hx, hmsg, bind, Except.bind]⟩

/-! ## Claim theorems -/

/-- C1 (amended): for every order whose line items all resolve, the
quotation satisfies
`final_total = (subtotal - discount) * (1 + r/100) + delivery_fee` with
`r` the effective tax rate `(order.tax_rate or 8.1)` — the supplied rate
when it is nonzero and the default 8.1 when the rate is missing or 0 —
and the delivery fee is 15 exactly when the delivery flag is true. -/
theorem C1_final_total_formula (cm : String → List String → Option String)
    (menu : List (String × MenuEntry)) (order : Order) (q : Quotation)
    (h : calculate_quotation cm menu order = .ok q) :
    q.final_total = (q.subtotal - q.discount) * (1 + effectiveTaxRate order.tax_rate / 100)
      + q.delivery_fee ∧
    q.delivery_fee = (if order.delivery = some true then (15:ℚ) else 0) := by
  unfold calculate_quotation at h
  cases hL : quotationLines cm menu order.items with
  | error e => rw [hL] at h; simp [bind, Except.bind] at h
  | ok lines =>
      rw [hL] at h
      simp only [bind, Except.bind] at h
      cases hD : discountAmount (lines.foldl (fun acc l => acc + l.TotalPrice) 0) order.discount with
      | error e => rw [hD] at h; simp at h
      | ok d =>
          rw [hD] at h
          injection h with h
          subst h
          refine ⟨by simp; ring, by simp⟩

/-- C1 witness: the formula instantiated on scenario A. -/
theorem C1_final_total_formula_witness :
    qA.final_total = (qA.subtotal - qA.discount) * (1 + effectiveTaxRate orderA.tax_rate / 100)
      + qA.delivery_fee ∧
    qA.delivery_fee = (if orderA.delivery = some true then (15:ℚ) else 0) :=
  C1_final_total_formula noMatch menuA orderA qA qA_spec

/-- C1 counterexample: an order that supplies `tax_rate = 0` is not taxed
at rate 0 as the claim states; Python `or` treats the 0 as falsy and the
default 8.1 is applied instead. -/
theorem C1_zero_tax_rate_counterexample :
    orderZ.tax_rate = some 0 ∧
    calculate_quotation noMatch menuA orderZ = .ok qZ ∧
    qZ.final_total ≠ (qZ.subtotal - qZ.discount) * (1 + 0 / 100) + qZ.delivery_fee := by
  refine ⟨rfl, qZ_spec, by norm_num [qZ]⟩

/-- C2 (amended): on the scenario-A input the pricing engine returns
subtotal 24, discount 2.40, delivery fee 15, and tax exactly 1.7496 and
final total exactly 38.3496 — the values 1.75 and 38.35 of the spec are
only the two-decimal renderings of these numbers. -/
theorem C2_scenarioA_exact_values :
    calculate_quotation noMatch menuA orderA = .ok qA ∧
    qA.subtotal = 24 ∧ qA.discount = 12/5 ∧ qA.delivery_fee = 15 ∧
    qA.tax = 2187/1250 ∧ qA.final_total = 47937/1250 ∧
    fmt2 qA.tax = "1.75" ∧ fmt2 qA.final_total = "38.35" :=
  ⟨qA_spec, rfl, rfl, rfl, rfl, rfl, fmt2_qA_tax, fmt2_qA_final⟩

/-- C2 counterexample: on the scenario-A input the returned tax is not
1.75 and the returned final total is not 38.35 (they are 1.7496 and
38.3496). -/
theorem C2_scenarioA_counterexample :
    calculate_quotation noMatch menuA orderA = .ok qA ∧
    qA.subtotal = 24 ∧ qA.discount = 12/5 ∧ qA.delivery_fee = 15 ∧
    qA.tax ≠ 7/4 ∧ qA.final_total ≠ 767/20 :=
  ⟨qA_spec, rfl, rfl, rfl, by norm_num [qA], by norm_num [qA]⟩

/-- C3: item names resolve by exact catalog-key match first, otherwise by
the single best fuzzy match (the `difflib.get_close_matches` call with
`n=1, cutoff=0.6`, the parameter `cm`); when some line item matches
neither way, `calculate_quotation` raises an item-not-found error and
returns no quotation at all. -/
theorem C3_resolution_and_abort (cm : String → List String → Option String)
    (menu : List (String × MenuEntry)) (order : Order) :
    (∀ name item, dictGet menu name = some item →
        resolveMenuItem cm menu name = .ok item) ∧
    (∀ name k item, dictGet menu name = none → cm name (menu.map Prod.fst) = some k →
        dictGet menu k = some item → resolveMenuItem cm menu name = .ok item) ∧
    (∀ oi, oi ∈ order.items → dictGet menu oi.name = none →
        cm oi.name (menu.map Prod.fst) = none →
        ∃ msg, calculate_quotation cm menu order = .error msg) := by
  refine ⟨?_, ?_, ?_⟩
  · intro name item hx; simp [resolveMenuItem, hx]
  · intro name k item h1 h2 h3; simp [resolveMenuItem, h1, h2, h3]
  · intro oi hmem h1 h2
    obtain ⟨msg, hmsg⟩ := lines_error_of_unresolved cm menu order.items oi hmem h1 h2
    exact ⟨msg, by simp [calculate_quotation, hmsg, bind, Except.bind]⟩

/-- C3 witness: an order containing the unknown item "Sushi" aborts with
an error. -/
theorem C3_resolution_and_abort_witness :
    ∃ msg, calculate_quotation noMatch menuA orderU = .error msg :=
  (C3_resolution_and_abort noMatch menuA orderU).2.2 { name := "Sushi", quantity := 1 }
    (by decide) (by decide) rfl

/-- C4 (code bug): when the parser agent returns the scenario-A `Order`,
the order branch of `process_message` invokes the pricing engine but then
crashes reading `result.name` (the `Order` model has no such field); the
user receives an error reply, no itemized summary is emitted, no
confirmation continuation is registered, and the active agent is reset to
triage by the error path. -/
theorem C4_order_branch_attribute_error :
    dispatchTurn noMatch menuA .parser (.structuredOrder orderA) =
      { messages := ["Processing your order details...", errorReply attributeErrorText],
        registered := none, nextActive := .triage } := by
  simp [dispatchTurn, qA_spec]

/-- C5 (amended): after a turn whose outcome is not a finalized order, the
active handler is reset to triage exactly when the responding handler is
the triage or the parser handler; every other handler — including the
contacts handler after an add-contact confirmation — remains active for
the next turn, whether or not it is awaiting more information. -/
theorem C5_active_handler_reset_rule (cm : String → List String → Option String)
    (menu : List (String × MenuEntry)) (agent : AgentName) (s : String) :
    (dispatchTurn cm menu agent (.text s)).nextActive =
      (if agent = .triage ∨ agent = .parser then .triage else agent) := by
  cases agent <;> simp [dispatchTurn]

/-- C5 counterexample: after the contacts handler returns its add-contact
confirmation text, the active handler is not triage (it stays the
contacts handler). -/
theorem C5_contacts_counterexample :
    (dispatchTurn noMatch menuA .contacts (.text "Contact added successfully.")).nextActive ≠
      AgentName.triage := by
  simp [dispatchTurn]

/-- C6 (code bug): with a stored history already at the bound of 4, the
in-place append makes the stored history 5 entries long, and the history
stored at the end of the turn (the run input of at most 4 entries plus
the newly generated items) is again 5 entries long — the documented bound
`MAX_HISTORY = 4` does not hold after the turn. -/
theorem C6_history_bound_violated :
    MAX_HISTORY = 4 ∧
    (historyAfterAppend hist4 userMsg5).length = 5 ∧
    (historyAfterTurn hist4 userMsg5 [newItem5]).length = 5 := by decide

/-- C7 (code bug): in the event-confirmation state a negative reply with
an address keyword does advance to the address-input continuation (single
free-text prompt, or the numbered selection when several addresses are
stored) rather than the modification one — but the handler then deletes
the stored draft, so the registered address continuation finds no state
on the next turn and fails instead of updating the draft. -/
theorem C7_address_branch_state_lost :
    (handle_calendar_confirmation echoReply (some stC7) "n wrong address" =
      { messages := ["Please provide the new address:"],
        registered := some .calendarResponse, stateAfter := none }) ∧
    (handle_calendar_confirmation echoReply (some stC7multi) "n, wrong location" =
      { messages := [chooseAddressText ["1 A St", "2 B Ave"]],
        registered := some .calendarResponse, stateAfter := none }) ∧
    (handle_calendar_response echoReply
        (handle_calendar_confirmation echoReply (some stC7) "n wrong address").stateAfter
        "456 Oak Ave" =
      { messages := [errOccurred "No calendar state found for user"], stateAfter := none }) := by
  refine ⟨by decide, by decide, by decide⟩

/-- C8: a percentage discount string with numeric part `d` yields
`discount = subtotal * d/100`, a flat numeric discount `f` yields
`discount = f`, a missing discount yields 0, and in every case the tax is
computed on `subtotal - discount`. -/
theorem C8_discount_rule (cm : String → List String → Option String)
    (menu : List (String × MenuEntry)) (order : Order) (q : Quotation)
    (h : calculate_quotation cm menu order = .ok q) :
    (∀ s d, order.discount = some (.inl s) → pyEndsWith s "%" = true →
        pyFloat (stripPercent s) = some d → q.discount = q.subtotal * (d / 100)) ∧
    (∀ f, order.discount = some (.inr f) → q.discount = f) ∧
    (order.discount = none → q.discount = 0) ∧
    q.tax = (q.subtotal - q.discount) * (effectiveTaxRate order.tax_rate / 100) := by
  unfold calculate_quotation at h
  cases hL : quotationLines cm menu order.items with
  | error e => rw [hL] at h; simp [bind, Except.bind] at h
  | ok lines =>
      rw [hL] at h
      simp only [bind, Except.bind] at h
      cases hD : discountAmount (lines.foldl (fun acc l => acc + l.TotalPrice) 0) order.discount with
      | error e => rw [hD] at h; simp at h
      | ok d =>
          rw [hD] at h
          injection h with h
          subst h
          refine ⟨?_, ?_, ?_, by simp⟩
          · intro s dd hs hEnds hFloat
            rw [hs] at hD
            have hne : ¬ s = "" := by
              intro he; subst he; exact absurd hEnds (by decide)
            simp [discountAmount, hne, hEnds, hFloat] at hD
            simp [← hD]
          · intro f hf
            rw [hf] at hD
            simp [discountAmount] at hD
            by_cases hf0 : f = 0
            · subst hf0
              simp at hD
              simp [← hD]
            · simp [hf0] at hD
              simp [← hD]
          · intro hn
            rw [hn] at hD
            simp [discountAmount] at hD
            simp [← hD]

/-- C8 witness: the rule instantiated on scenario A, whose discount string
is "10%". -/
theorem C8_discount_rule_witness :
    qA.discount = qA.subtotal * ((10:ℚ) / 100) ∧
    qA.tax = (qA.subtotal - qA.discount) * (effectiveTaxRate orderA.tax_rate / 100) := by
  constructor
  · exact (C8_discount_rule noMatch menuA orderA qA qA_spec).1 "10%" 10 rfl (by decide)
      (by have h : stripPercent "10%" = "10" := by decide
          rw [h]
          simp [pyFloat, digitsToNat])
  · exact (C8_discount_rule noMatch menuA orderA qA qA_spec).2.2.2

/-- C9 (amended): the scheduling service rejects an event-creation request
and inserts nothing whenever the start or the end datetime, after its
year has been forced to 2025 by `validate_datetime`, lies before the
current time; the check is applied to the 2025-normalized datetime, not
to the datetime as written. -/
theorem C9_past_check_after_year_rewrite (now start finish : PyDateTime)
    (summary address description : String) (attendees : List String) :
    (∀ s, replaceYear2025 start = .ok s → dtLt s now = true →
      ∃ msg, create_delivery_event now summary address description start finish attendees =
        .error msg) ∧
    (∀ e, replaceYear2025 finish = .ok e → dtLt e now = true →
      ∃ msg, create_delivery_event now summary address description start finish attendees =
        .error msg) := by
  constructor
  · intro s hs hlt
    refine ⟨"Cannot schedule events in the past", ?_⟩
    simp [create_delivery_event, validate_datetime, hs, hlt, bind, Except.bind]
  · intro e he hlt
    cases hv : validate_datetime now start with
    | error msg =>
        exact ⟨msg, by simp [create_delivery_event, hv, bind, Except.bind]⟩
    | ok s =>
        refine ⟨"Cannot schedule events in the past", ?_⟩
        unfold create_delivery_event
        rw [hv]
        simp only [bind, Except.bind]
        simp [validate_datetime, he, hlt, bind, Except.bind]

/-- C9 witness: a request whose start is written in 2025 and lies before
the clock is rejected. -/
theorem C9_past_check_witness :
    (replaceYear2025 start2025Past = .ok start2025Past ∧ dtLt start2025Past nowC9 = true) ∧
    ∃ msg, create_delivery_event nowC9 "Delivery for Jane" "123 Main St" "" start2025Past
      end2025Future [] = .error msg := by
  refine ⟨⟨rfl, by decide⟩, ?_⟩
  exact (C9_past_check_after_year_rewrite nowC9 start2025Past end2025Future "Delivery for Jane"
    "123 Main St" "" []).1 start2025Past rfl (by decide)

/-- C9 counterexample: a request written entirely in 2024 — in the past
relative to the clock — is accepted, because the year is rewritten to
2025 before the past check. -/
theorem C9_year_rewrite_counterexample :
    dtLt startPast2024 nowC9 = true ∧ dtLt endPast2024 nowC9 = true ∧
    ∃ ev, create_delivery_event nowC9 "Delivery" "123 Main St" "" startPast2024 endPast2024 [] =
      .ok ev := by
  refine ⟨by decide, by decide, ⟨_, rfl⟩⟩

/-- C10: at each of the three confirmation steps a reply takes the
affirmative branch exactly when, stripped and lowercased, it starts with
"y"; "ok", "sure" and "confirmed" are all treated as negative. -/
theorem C10_affirmative_iff_y (sendOk : Bool) (agentReply : String → String)
    (st : Option CalendarState) (q : QuotationCtx) (s : String) :
    ((confirmation_handler sendOk s).messages =
        ["Quotation sending canceled. Please try again if needed."] ↔ pyYes s = false) ∧
    ((handle_calendar_after_approval agentReply st q s).registered = none ↔ pyYes s = false) ∧
    ((handle_calendar_confirmation agentReply st s).registered ≠ none ↔ pyYes s = false) ∧
    pyYes "ok" = false ∧ pyYes "sure" = false ∧ pyYes "confirmed" = false ∧
    pyYes "  Y " = true ∧ pyYes "yes" = true := by
  refine ⟨?_, ?_, ?_, by decide, by decide, by decide, by decide, by decide⟩
  · cases hy : pyYes s with
    | true => cases sendOk <;> simp [confirmation_handler, hy]
    | false => simp [confirmation_handler, hy]
  · cases hy : pyYes s with
    | true => simp [handle_calendar_after_approval, pyYes] at hy ⊢; simp [hy]
    | false => simp [handle_calendar_after_approval, pyYes] at hy ⊢; simp [hy]
  · cases hy : pyYes s with
    | true =>
        simp [pyYes] at hy
        cases st <;> simp [handle_calendar_confirmation, hy]
    | false =>
        simp only [pyYes] at hy
        cases st <;> simp [handle_calendar_confirmation, hy] <;> split_ifs <;> simp

end Leyla
